import Mathlib

/-!
Verification of the upload-data analysis pipeline of the MMM onboarding
prototype (the POST analyze-data route handler in the server routes module,
together with the in-memory storage collaborator).

The embedding below models the handler after the file has been parsed:
a parsed file is a list of rows plus the ordered column list; a row is an
ordered association list of column name to cell text (the CSV backend
produces string cells keyed by the header, in header order).  JavaScript
library behaviour that the handler relies on (`String.prototype.toLowerCase`
restricted to ASCII column names, `String.prototype.includes`,
`String.prototype.replace` with a one-character pattern, `Number(...)`
string-to-number conversion, `Set` cardinality, truthiness of strings) is
modelled by explicit executable functions on character lists.
-/

/-- One entry of the handler's `errors` array:
`\x7b row: number, column: string, message: string \x7d`. -/
structure ValidationError where
  row : Nat
  column : String
  message : String
deriving Repr, DecidableEq

/-- A parsed data row: ordered association list from column name to cell
text, as produced by the CSV parse with the header row as keys. -/
abbrev Row := List (String × String)

/-- ASCII lower-casing of one character, modelling what
`toLowerCase` does on the ASCII column names this code handles. -/
def lcChar (c : Char) : Char :=
  if 'A' ≤ c && c ≤ 'Z' then Char.ofNat (c.toNat + 32) else c

/-- `s.toLowerCase()` on ASCII strings. -/
def lowerStr (s : String) : String := ⟨s.data.map lcChar⟩

/-- Does `pat` start the list `l`?  Helper for substring search. -/
def listStartsWith : List Char → List Char → Bool
  | [], _ => true
  | _ :: _, [] => false
  | p :: ps, c :: cs => p == c && listStartsWith ps cs

/-- `l` contains `pat` as a contiguous run: models
`String.prototype.includes`. -/
def listHasInfix (pat : List Char) : List Char → Bool
  | [] => pat.isEmpty
  | c :: tl => listStartsWith pat (c :: tl) || listHasInfix pat tl

/-- `s.includes(pat)` on the underlying character lists. -/
def strIncludes (s pat : String) : Bool := listHasInfix pat.data s.data

/-- `col.replace(UNDERSCORE, SPACE)`: a JavaScript `replace` with a string
pattern substitutes only the first occurrence. -/
def usFirst : List Char → List Char
  | [] => []
  | c :: cs => if c == '_' then ' ' :: cs else c :: usFirst cs

/-- The required-column variant with the first underscore turned into a
space. -/
def underscoreToSpace (s : String) : String := ⟨usFirst s.data⟩

/-- The keys of a row, in insertion order (`Object.keys(row)`). -/
def keysOf (row : Row) : List String := row.map Prod.fst

/-- `Object.keys(row).find(p)`. -/
def findKey (row : Row) (p : String → Bool) : Option String :=
  (keysOf row).find? p

/-- `row[k]`: the cell stored under exact key `k`, if any. -/
def getCell (row : Row) (k : String) : Option String :=
  (row.find? (fun kv => kv.1 == k)).map Prod.snd

/-- `requiredColumns = ['date', 'channel', 'campaign', 'spend']`. -/
def requiredColumns : List String := ["date", "channel", "campaign", "spend"]

/-- The required columns with no case-insensitive match among the file's
columns, also accepting the underscore-to-space variant:
`requiredColumns.filter(col => !lowerCaseColumns.includes(col) &&
!lowerCaseColumns.includes(col.replace(UNDERSCORE, SPACE)))`. -/
def missingColumns (cols : List String) : List String :=
  let lower := cols.map lowerStr
  requiredColumns.filter
    (fun c => !(lower.contains c) && !(lower.contains (underscoreToSpace c)))

/-- Whitespace for the purposes of `Number(...)` string trimming: the
ECMAScript StrWhiteSpace characters, that is WhiteSpace (tab, vertical
tab, form feed, space, no-break space, the byte-order mark, and the
Unicode space-separator category: ogham space mark U+1680, the en-quad
through hair-space range U+2000 to U+200A, narrow no-break space U+202F,
medium mathematical space U+205F, ideographic space U+3000) together with
the LineTerminator characters (line feed, carriage return, line separator
U+2028, paragraph separator U+2029). -/
def jsWhitespaceChar (c : Char) : Bool :=
  c.toNat == 9 || c.toNat == 10 || c.toNat == 11 || c.toNat == 12 ||
  c.toNat == 13 || c.toNat == 32 || c.toNat == 160 || c.toNat == 5760 ||
  (8192 ≤ c.toNat && c.toNat ≤ 8202) || c.toNat == 8232 || c.toNat == 8233 ||
  c.toNat == 8239 || c.toNat == 8287 || c.toNat == 12288 || c.toNat == 65279

/-- Hexadecimal digit. -/
def isHexDigitB (c : Char) : Bool :=
  c.isDigit || ('a' ≤ c && c ≤ 'f') || ('A' ≤ c && c ≤ 'F')

/-- Octal digit. -/
def isOctalDigit (c : Char) : Bool := '0' ≤ c && c ≤ '7'

/-- Binary digit. -/
def isBinDigit (c : Char) : Bool := c == '0' || c == '1'

/-- The exponent tail after the `e` marker: optional sign then at least one
digit. -/
def expTail (l : List Char) : Bool :=
  let l2 := match l with
    | c :: r => if c == '+' || c == '-' then r else c :: r
    | [] => []
  !l2.isEmpty && l2.all Char.isDigit

/-- What may follow the mantissa of a decimal literal: nothing, or an
exponent part. -/
def afterMantissa : List Char → Bool
  | [] => true
  | c :: r => (c == 'e' || c == 'E') && expTail r

/-- An unsigned decimal literal: digits, digits-dot-digits, dot-digits or
digits-dot, each with an optional exponent. -/
def decLiteral (l : List Char) : Bool :=
  let ip := l.takeWhile Char.isDigit
  let r1 := l.dropWhile Char.isDigit
  match r1 with
  | '.' :: r2 =>
      let fp := r2.takeWhile Char.isDigit
      let r3 := r2.dropWhile Char.isDigit
      (!ip.isEmpty || !fp.isEmpty) && afterMantissa r3
  | _ => !ip.isEmpty && afterMantissa r1

/-- An unsigned numeric body: the literal word `Infinity` or a decimal
literal. -/
def unsignedPart (l : List Char) : Bool :=
  l == "Infinity".data || decLiteral l

/-- A decimal body with an optional leading sign. -/
def signedDec (l : List Char) : Bool :=
  match l with
  | c :: r => if c == '+' || c == '-' then unsignedPart r else unsignedPart (c :: r)
  | [] => false

/-- The trimmed string accepted by `Number(...)`: empty converts to zero;
`0x`, `0o`, `0b` radix literals take no sign; otherwise an optionally
signed decimal literal or `Infinity`. -/
def jsNumericCore (l : List Char) : Bool :=
  match l with
  | [] => true
  | '0' :: c :: r =>
      if c == 'x' || c == 'X' then !r.isEmpty && r.all isHexDigitB
      else if c == 'o' || c == 'O' then !r.isEmpty && r.all isOctalDigit
      else if c == 'b' || c == 'B' then !r.isEmpty && r.all isBinDigit
      else signedDec ('0' :: c :: r)
  | l => signedDec l

/-- `!isNaN(Number(s))` for a string `s`: trim whitespace, then check the
ECMAScript string-to-number grammar. -/
def jsIsNumeric (s : String) : Bool :=
  jsNumericCore
    (((s.data.dropWhile jsWhitespaceChar).reverse.dropWhile jsWhitespaceChar).reverse)

/-- `spend.toString().replace(DOLLAR-COMMA-CLASS, EMPTY)`: drop every
dollar sign and comma. -/
def stripMoney (s : String) : String :=
  ⟨s.data.filter (fun c => !(c == '$' || c == ','))⟩

/-- JavaScript falsiness of a cell that is a string or absent:
`undefined`, `null` and the empty string are falsy. -/
def jsFalsyCell : Option String → Bool
  | none => true
  | some v => v == ""

/-- A character allowed in a channel name by the regular expression
class of letters, digits, space, underscore and hyphen. -/
def channelOkChar (c : Char) : Bool :=
  c.isAlpha || c.isDigit || c == ' ' || c == '_' || c == '-'

/-- The special-character test on a channel value. -/
def hasSpecialChar (s : String) : Bool := s.data.any (fun c => !channelOkChar c)

/-- Resolution of the date column inside a row:
`Object.keys(row).find(key => key.toLowerCase() === DATE)`. -/
def findDateKey (row : Row) : Option String :=
  findKey row (fun k => lowerStr k == "date")

/-- Resolution of the channel column inside a row. -/
def findChannelKey (row : Row) : Option String :=
  findKey row (fun k => lowerStr k == "channel")

/-- Resolution of the spend-like column inside a row:
`key.toLowerCase() === SPEND || key.toLowerCase().includes(COST)`. -/
def findSpendKey (row : Row) : Option String :=
  findKey row (fun k => lowerStr k == "spend" || strIncludes (lowerStr k) "cost")

/-- The date check of one row: a resolved date column with a falsy value
yields `Missing date value` at display row `index + 2`. -/
def dateCheck (row : Row) (index : Nat) : List ValidationError :=
  match findDateKey row with
  | none => []
  | some dcol =>
      if jsFalsyCell (getCell row dcol) then
        [⟨index + 2, dcol, "Missing date value"⟩]
      else []

/-- The spend check of one row: absent or empty value yields
`Missing spend value`; otherwise the value with dollars and commas removed
must convert to a number, else `Invalid spend format (must be numeric)`. -/
def spendCheck (row : Row) (index : Nat) : List ValidationError :=
  match findSpendKey row with
  | none => []
  | some scol =>
      match getCell row scol with
      | none => [⟨index + 2, scol, "Missing spend value"⟩]
      | some v =>
          if v == "" then [⟨index + 2, scol, "Missing spend value"⟩]
          else if jsIsNumeric (stripMoney v) then []
          else [⟨index + 2, scol, "Invalid spend format (must be numeric)"⟩]

/-- The channel check of one row: a present string value containing a
character outside the allowed class yields
`Channel name contains special characters`. -/
def channelCheck (row : Row) (index : Nat) : List ValidationError :=
  match findChannelKey row with
  | none => []
  | some ccol =>
      match getCell row ccol with
      | none => []
      | some v =>
          if hasSpecialChar v then
            [⟨index + 2, ccol, "Channel name contains special characters"⟩]
          else []

/-- All errors of one row, pushed in the source order date, spend,
channel. -/
def rowErrors (row : Row) (index : Nat) : List ValidationError :=
  dateCheck row index ++ spendCheck row index ++ channelCheck row index

/-- `parsedData.forEach((row, index) => ...)`: errors accumulate across
rows in order, starting at row index `i`. -/
def rowErrorsFrom (i : Nat) : List Row → List ValidationError
  | [] => []
  | r :: rs => rowErrors r i ++ rowErrorsFrom (i + 1) rs

/-- The full row-level error list of the parsed data. -/
def allRowErrors (rows : List Row) : List ValidationError := rowErrorsFrom 0 rows

/-- The per-row channel projection used by the summary:
`channelCol ? row[channelCol] : null`. -/
def channelValOf (row : Row) : Option String :=
  match findChannelKey row with
  | some k => getCell row k
  | none => none

/-- `parsedData.map(channelValOf).filter(Boolean)`: keep the truthy
(present, non-empty) channel values in row order. -/
def channelValues (rows : List Row) : List String :=
  rows.filterMap
    (fun row => match channelValOf row with
      | none => none
      | some v => if v == "" then none else some v)

/-- `new Set(l).size`: the number of distinct elements. -/
def jsSetSize (l : List String) : Nat := l.dedup.length

/-- The summary block of the response. -/
structure Summary where
  timePeriod : String
  dataPoints : Nat
  channels : Nat
deriving Repr, DecidableEq

/-- The response of the analyze-data handler.  A field that the handler
leaves out of the JSON object (the early return carries only `status` and
`errors`; a success result carries no `errors`) is `none`. -/
structure DataValidationResponse where
  status : String
  errors : Option (List ValidationError)
  summary : Option Summary
  preview : Option (List Row)
  columns : Option (List String)
deriving Repr, DecidableEq

/-- The synthetic error for one missing required column. -/
def missingColError (col : String) : ValidationError :=
  ⟨0, col, "Required column \"" ++ col ++ "\" is missing from the data file"⟩

/-- The analyze-data handler after parsing, from the required-column check
to the response object: on missing required columns it returns early with
only `status` and `errors`; otherwise it runs the row-level checks and
builds the full response. -/
def analyzeData (rows : List Row) (cols : List String) : DataValidationResponse :=
  let missing := missingColumns cols
  if missing.length > 0 then
    { status := "error"
      errors := some (missing.map missingColError)
      summary := none
      preview := none
      columns := none }
  else
    let errors := allRowErrors rows
    { status := if errors.length > 0 then "error" else "success"
      errors := if errors.length > 0 then some errors else none
      summary := some
        { timePeriod := "Sample period"
          dataPoints := rows.length
          channels := jsSetSize (channelValues rows) }
      preview := some
        (if errors.length > 0 then rows.take (min 5 rows.length)
         else rows.take (min 5 rows.length))
      columns := some cols }

/-- The onboarding record fields touched or readable around the analyze
step.  `primaryKpi` stands for the record fields the analyze step never
writes. -/
structure OnboardingRecord where
  step : String
  primaryKpi : Option String
  dataStatus : Option String
  dataErrors : Option (List ValidationError)
deriving Repr, DecidableEq

/-- `storage.saveOnboardingStep(userId, STEP-ANALYZE, data)` with
`data = \x7b dataStatus, dataErrors \x7d`: the stored record is spread-merged
with the step name and the supplied fields; every other field keeps its
value. -/
def saveAnalyzeStep (rec : OnboardingRecord) (status : String)
    (errs : List ValidationError) : OnboardingRecord :=
  { rec with step := "analyze", dataStatus := some status,
             dataErrors := some errs }

/-- A parsed uploaded file. -/
structure ParsedFile where
  rows : List Row
  columns : List String
deriving Repr, DecidableEq

/-- Server state the analyze endpoint touches: the user's uploaded files,
most recent first, and the user's onboarding record. -/
structure ServerState where
  files : List ParsedFile
  record : OnboardingRecord
deriving Repr, DecidableEq

/-- The whole analyze-data endpoint as a state transformer: with no
uploaded file it fails (the 400 response); otherwise it analyzes the most
recent file.  The missing-columns early return happens before the
`saveOnboardingStep` call, so it leaves the state unchanged; the normal
path persists `dataStatus` and `dataErrors` (`response.errors || []`). -/
def analyzeEndpoint (st : ServerState) :
    Option (DataValidationResponse × ServerState) :=
  match st.files with
  | [] => none
  | file :: _ =>
      let resp := analyzeData file.rows file.columns
      if (missingColumns file.columns).length > 0 then
        some (resp, st)
      else
        some (resp,
          { files := st.files
            record := saveAnalyzeStep st.record resp.status (resp.errors.getD []) })

/-! Helper lemmas about the three row-level checks. -/

lemma mem_dateCheck {row : Row} {i : Nat} {e : ValidationError}
    (h : e ∈ dateCheck row i) :
    e.row = i + 2 ∧ e.message = "Missing date value" := by
  unfold dateCheck at h
  split at h
  · simp at h
  · split at h
    · simp at h
      subst h
      exact ⟨rfl, rfl⟩
    · simp at h

lemma mem_spendCheck {row : Row} {i : Nat} {e : ValidationError}
    (h : e ∈ spendCheck row i) :
    e.row = i + 2 ∧ (e.message = "Missing spend value" ∨
      e.message = "Invalid spend format (must be numeric)") := by
  unfold spendCheck at h
  split at h
  · simp at h
  · split at h
    · simp at h
      subst h
      exact ⟨rfl, Or.inl rfl⟩
    · split at h
      · simp at h
        subst h
        exact ⟨rfl, Or.inl rfl⟩
      · split at h
        · simp at h
        · simp at h
          subst h
          exact ⟨rfl, Or.inr rfl⟩

lemma mem_channelCheck {row : Row} {i : Nat} {e : ValidationError}
    (h : e ∈ channelCheck row i) :
    e.row = i + 2 ∧ e.message = "Channel name contains special characters" := by
  unfold channelCheck at h
  split at h
  · simp at h
  · split at h
    · simp at h
    · split at h
      · simp at h
        subst h
        exact ⟨rfl, rfl⟩
      · simp at h

lemma mem_rowErrors_split {row : Row} {i : Nat} {e : ValidationError}
    (h : e ∈ rowErrors row i) :
    e ∈ dateCheck row i ∨ e ∈ spendCheck row i ∨ e ∈ channelCheck row i := by
  unfold rowErrors at h
  rcases List.mem_append.1 h with h1 | h2
  · rcases List.mem_append.1 h1 with h3 | h4
    · exact Or.inl h3
    · exact Or.inr (Or.inl h4)
  · exact Or.inr (Or.inr h2)

lemma mem_rowErrors_row {row : Row} {i : Nat} {e : ValidationError}
    (h : e ∈ rowErrors row i) : e.row = i + 2 := by
  rcases mem_rowErrors_split h with h | h | h
  · exact (mem_dateCheck h).1
  · exact (mem_spendCheck h).1
  · exact (mem_channelCheck h).1

lemma mem_rowErrorsFrom_ge {rows : List Row} {i : Nat} {e : ValidationError}
    (h : e ∈ rowErrorsFrom i rows) : i + 2 ≤ e.row := by
  induction rows generalizing i with
  | nil => simp [rowErrorsFrom] at h
  | cons r rs ih =>
      unfold rowErrorsFrom at h
      rcases List.mem_append.1 h with h1 | h2
      · exact (mem_rowErrors_row h1).symm.le
      · have := ih h2
        omega

/-- Evaluation of the handler on a file with missing required columns:
the early-return response. -/
lemma analyzeData_eq_missing {rows : List Row} {cols : List String}
    (h : missingColumns cols ≠ []) :
    analyzeData rows cols =
      { status := "error"
        errors := some ((missingColumns cols).map missingColError)
        summary := none
        preview := none
        columns := none } := by
  have hl : 0 < (missingColumns cols).length := List.length_pos.mpr h
  simp only [analyzeData]
  rw [if_pos hl]

/-- Evaluation of the handler on a file with all required columns present:
the full response built from the row-level error list. -/
lemma analyzeData_eq_ok {rows : List Row} {cols : List String}
    (h : missingColumns cols = []) :
    analyzeData rows cols =
      { status := if (allRowErrors rows).length > 0 then "error" else "success"
        errors := if (allRowErrors rows).length > 0 then some (allRowErrors rows) else none
        summary := some
          { timePeriod := "Sample period"
            dataPoints := rows.length
            channels := jsSetSize (channelValues rows) }
        preview := some
          (if (allRowErrors rows).length > 0 then rows.take (min 5 rows.length)
           else rows.take (min 5 rows.length))
        columns := some cols } := by
  simp only [analyzeData, h]
  rw [if_neg (by simp)]

/-- C1: when the parsed column set lacks at least one required column
(case-insensitively, also accepting the underscore-to-space variant), the
result has status `error`, its error list is exactly one synthetic
`ValidationError` per missing required column — each with row index `0`,
the missing column as its column, and the message naming that column — and
no row-level errors appear (the error list is exactly the missing-column
list, so its length is the number of missing columns). -/
theorem c1_missing_columns_report (rows : List Row) (cols : List String)
    (h : missingColumns cols ≠ []) :
    (analyzeData rows cols).status = "error" ∧
    (analyzeData rows cols).errors = some ((missingColumns cols).map missingColError) ∧
    (∀ e ∈ ((analyzeData rows cols).errors.getD []),
        e.row = 0 ∧ e.column ∈ missingColumns cols ∧
        e.message = "Required column \"" ++ e.column ++ "\" is missing from the data file") ∧
    ((analyzeData rows cols).errors.getD []).length = (missingColumns cols).length := by
  rw [analyzeData_eq_missing h]
  refine ⟨rfl, rfl, ?_, by simp⟩
  intro e he
  simp only [Option.getD_some] at he
  rcases List.mem_map.1 he with ⟨c, hc, rfl⟩
  exact ⟨rfl, hc, rfl⟩

/-- C1 witness: a file whose columns are only `Date` and `Channel` is
missing `campaign` and `spend` and is reported accordingly. -/
theorem c1_missing_columns_report_witness :
    (analyzeData [[("Date", "2024-01-01"), ("Channel", "TV")]] ["Date", "Channel"]).status = "error" ∧
    (analyzeData [[("Date", "2024-01-01"), ("Channel", "TV")]] ["Date", "Channel"]).errors =
      some ((missingColumns ["Date", "Channel"]).map missingColError) ∧
    (∀ e ∈ ((analyzeData [[("Date", "2024-01-01"), ("Channel", "TV")]] ["Date", "Channel"]).errors.getD []),
        e.row = 0 ∧ e.column ∈ missingColumns ["Date", "Channel"] ∧
        e.message = "Required column \"" ++ e.column ++ "\" is missing from the data file") ∧
    ((analyzeData [[("Date", "2024-01-01"), ("Channel", "TV")]] ["Date", "Channel"]).errors.getD []).length =
      (missingColumns ["Date", "Channel"]).length :=
  c1_missing_columns_report [[("Date", "2024-01-01"), ("Channel", "TV")]]
    ["Date", "Channel"] (by decide)

/-- C4: the result status is `error` exactly when the errors field is
present; a present errors list is never empty; and when the errors field
is absent the status is `success` (and conversely a `success` status
carries no errors field). -/
theorem c4_status_iff_errors (rows : List Row) (cols : List String) :
    ((analyzeData rows cols).status = "error" ↔ (analyzeData rows cols).errors ≠ none) ∧
    (∀ errs, (analyzeData rows cols).errors = some errs → errs ≠ []) ∧
    ((analyzeData rows cols).errors = none → (analyzeData rows cols).status = "success") ∧
    ((analyzeData rows cols).status = "success" → (analyzeData rows cols).errors = none) := by
  by_cases hm : missingColumns cols = []
  · rw [analyzeData_eq_ok hm]
    by_cases he : (allRowErrors rows).length > 0
    · simp only [he, if_pos]
      refine ⟨by simp, ?_, by simp, ?_⟩
      · intro errs herrs
        rcases Option.some.inj herrs with rfl
        intro hnil
        rw [hnil] at he
        simp at he
      · intro hcontra
        exact absurd hcontra (by decide)
    · simp only [he, if_neg, if_false]
      exact ⟨by simp, by simp, by simp, by simp⟩
  · rw [analyzeData_eq_missing hm]
    refine ⟨by simp, ?_, by simp, ?_⟩
    · intro errs herrs
      rcases Option.some.inj herrs with rfl
      intro hnil
      exact hm (List.map_eq_nil_iff.1 hnil)
    · intro hcontra
      have h2 : ("error" : String) = "success" := hcontra
      exact absurd h2 (by decide)

/-- C9: every error the analysis produces references either display row 0
(a missing-required-column error) or a display row of at least 2 (a
row-level error at zero-based index plus 2); no error ever references
row 1, the header row. -/
theorem c9_error_row_indices (rows : List Row) (cols : List String)
    (e : ValidationError) (h : e ∈ (analyzeData rows cols).errors.getD []) :
    (e.row = 0 ∨ 2 ≤ e.row) ∧ e.row ≠ 1 := by
  by_cases hm : missingColumns cols = []
  · rw [analyzeData_eq_ok hm] at h
    by_cases he : (allRowErrors rows).length > 0
    · simp only [he, if_pos, Option.getD_some] at h
      have h2 := @mem_rowErrorsFrom_ge rows 0 e h
      omega
    · simp only [he, if_neg, if_false, Option.getD_none] at h
      simp at h
  · rw [analyzeData_eq_missing hm] at h
    simp only [Option.getD_some] at h
    rcases List.mem_map.1 h with ⟨c, _, rfl⟩
    exact ⟨Or.inl rfl, by simp [missingColError]⟩

/-- C9 witness: the channel value `TV!` in the first data row yields the
row-level error at display row 2, which is not row 1. -/
theorem c9_error_row_indices_witness :
    ((⟨2, "Channel", "Channel name contains special characters"⟩ : ValidationError).row = 0 ∨
      2 ≤ (⟨2, "Channel", "Channel name contains special characters"⟩ : ValidationError).row) ∧
    (⟨2, "Channel", "Channel name contains special characters"⟩ : ValidationError).row ≠ 1 :=
  c9_error_row_indices
    [[("Date", "d"), ("Channel", "TV!"), ("Campaign", "X"), ("Spend", "5")]]
    ["Date", "Channel", "Campaign", "Spend"]
    ⟨2, "Channel", "Channel name contains special characters"⟩ (by decide)

/-- C10: a header-only file whose columns include all four required
columns succeeds vacuously: status `success`, no errors field, zero data
points, zero channels, and an empty preview. -/
theorem c10_empty_rows_success (cols : List String)
    (h : missingColumns cols = []) :
    analyzeData [] cols =
      ⟨"success", none, some ⟨"Sample period", 0, 0⟩, some [], some cols⟩ := by
  rw [analyzeData_eq_ok h]
  rfl

/-- C10 witness: the canonical lower-case header set. -/
theorem c10_empty_rows_success_witness :
    analyzeData [] ["date", "channel", "campaign", "spend"] =
      ⟨"success", none, some ⟨"Sample period", 0, 0⟩, some [],
        some ["date", "channel", "campaign", "spend"]⟩ :=
  c10_empty_rows_success ["date", "channel", "campaign", "spend"] (by decide)

/-- C3 counterexample: a one-row file missing required columns gets the
early-return response, which carries no preview at all, although the claim
demands a preview of min(5, 1) = 1 rows regardless of error status. -/
theorem c3_preview_counterexample :
    (analyzeData [[("Channel", "TV")]] ["Channel"]).status = "error" ∧
    (analyzeData [[("Channel", "TV")]] ["Channel"]).preview.map List.length ≠
      some (min 5 ([[("Channel", "TV")]] : List Row).length) := by
  decide

/-- C3 amended: for every analyzed file that passes the required-column
check, the preview is the first min(5, row count) rows — the same slice
whether the status ends up `success` or `error` — and the columns are
returned unchanged; the missing-columns early return carries no preview. -/
theorem c3_amended_preview (rows : List Row) (cols : List String)
    (h : missingColumns cols = []) :
    (analyzeData rows cols).preview = some (rows.take (min 5 rows.length)) ∧
    (rows.take (min 5 rows.length)).length = min 5 rows.length ∧
    (analyzeData rows cols).columns = some cols := by
  rw [analyzeData_eq_ok h]
  refine ⟨?_, ?_, rfl⟩
  · simp only [ite_self]
  · rw [List.length_take, Nat.min_assoc, Nat.min_self]

/-- C3 amended witness: a six-row file with all required columns previews
exactly its first five rows. -/
theorem c3_amended_preview_witness :
    (analyzeData
        [[("date", "1"), ("channel", "A"), ("campaign", "x"), ("spend", "1")],
         [("date", "2"), ("channel", "B"), ("campaign", "x"), ("spend", "2")],
         [("date", "3"), ("channel", "C"), ("campaign", "x"), ("spend", "3")],
         [("date", "4"), ("channel", "D"), ("campaign", "x"), ("spend", "4")],
         [("date", "5"), ("channel", "E"), ("campaign", "x"), ("spend", "5")],
         [("date", "6"), ("channel", "F"), ("campaign", "x"), ("spend", "6")]]
        ["date", "channel", "campaign", "spend"]).preview =
      some (([[("date", "1"), ("channel", "A"), ("campaign", "x"), ("spend", "1")],
         [("date", "2"), ("channel", "B"), ("campaign", "x"), ("spend", "2")],
         [("date", "3"), ("channel", "C"), ("campaign", "x"), ("spend", "3")],
         [("date", "4"), ("channel", "D"), ("campaign", "x"), ("spend", "4")],
         [("date", "5"), ("channel", "E"), ("campaign", "x"), ("spend", "5")],
         [("date", "6"), ("channel", "F"), ("campaign", "x"), ("spend", "6")]] : List Row).take
        (min 5 6)) ∧
    (([[("date", "1"), ("channel", "A"), ("campaign", "x"), ("spend", "1")],
         [("date", "2"), ("channel", "B"), ("campaign", "x"), ("spend", "2")],
         [("date", "3"), ("channel", "C"), ("campaign", "x"), ("spend", "3")],
         [("date", "4"), ("channel", "D"), ("campaign", "x"), ("spend", "4")],
         [("date", "5"), ("channel", "E"), ("campaign", "x"), ("spend", "5")],
         [("date", "6"), ("channel", "F"), ("campaign", "x"), ("spend", "6")]] : List Row).take
        (min 5 6)).length = min 5 6 ∧
    (analyzeData
        [[("date", "1"), ("channel", "A"), ("campaign", "x"), ("spend", "1")],
         [("date", "2"), ("channel", "B"), ("campaign", "x"), ("spend", "2")],
         [("date", "3"), ("channel", "C"), ("campaign", "x"), ("spend", "3")],
         [("date", "4"), ("channel", "D"), ("campaign", "x"), ("spend", "4")],
         [("date", "5"), ("channel", "E"), ("campaign", "x"), ("spend", "5")],
         [("date", "6"), ("channel", "F"), ("campaign", "x"), ("spend", "6")]]
        ["date", "channel", "campaign", "spend"]).columns =
      some ["date", "channel", "campaign", "spend"] :=
  c3_amended_preview
    [[("date", "1"), ("channel", "A"), ("campaign", "x"), ("spend", "1")],
     [("date", "2"), ("channel", "B"), ("campaign", "x"), ("spend", "2")],
     [("date", "3"), ("channel", "C"), ("campaign", "x"), ("spend", "3")],
     [("date", "4"), ("channel", "D"), ("campaign", "x"), ("spend", "4")],
     [("date", "5"), ("channel", "E"), ("campaign", "x"), ("spend", "5")],
     [("date", "6"), ("channel", "F"), ("campaign", "x"), ("spend", "6")]]
    ["date", "channel", "campaign", "spend"] (by decide)

/-- Checking for a special character is the negation of every character
being allowed. -/
lemma anyNot_eq_not_all (l : List Char) :
    l.any (fun c => !channelOkChar c) = !(l.all channelOkChar) := by
  induction l with
  | nil => rfl
  | cons c cs ih => simp [List.any_cons, List.all_cons, ih, Bool.not_and]

/-- Evaluation of the spend check once the spend-like column is
resolved. -/
lemma spendCheck_resolved (row : Row) (i : Nat) (col : String)
    (h : findSpendKey row = some col) :
    spendCheck row i =
      (match getCell row col with
       | none => [⟨i + 2, col, "Missing spend value"⟩]
       | some v =>
           if v == "" then [⟨i + 2, col, "Missing spend value"⟩]
           else if jsIsNumeric (stripMoney v) then []
           else [⟨i + 2, col, "Invalid spend format (must be numeric)"⟩]) := by
  unfold spendCheck
  rw [h]

/-- Evaluation of the channel check once the channel column is
resolved. -/
lemma channelCheck_resolved (row : Row) (i : Nat) (col : String)
    (h : findChannelKey row = some col) :
    channelCheck row i =
      (match getCell row col with
       | none => []
       | some v =>
           if hasSpecialChar v then
             [⟨i + 2, col, "Channel name contains special characters"⟩]
           else []) := by
  unfold channelCheck
  rw [h]

/-- C5: in a row whose spend-like column resolves (named `spend`
case-insensitively, or lower-cased name containing `cost`): an absent or
empty value yields exactly the `Missing spend value` error; a non-empty
value that is numeric after removing every dollar sign and comma (in the
sense of the JavaScript `Number(...)` conversion) yields no spend error
anywhere in the row's errors; and a non-empty value whose stripped form is
not numeric yields exactly the `Invalid spend format (must be numeric)`
error, which appears in the row's errors. -/
theorem c5_spend_validation (row : Row) (i : Nat) (col : String)
    (h : findSpendKey row = some col) :
    (jsFalsyCell (getCell row col) = true →
       spendCheck row i = [⟨i + 2, col, "Missing spend value"⟩]) ∧
    (∀ s, getCell row col = some s → s ≠ "" →
       jsIsNumeric (stripMoney s) = true →
       spendCheck row i = [] ∧
         ∀ e ∈ rowErrors row i,
           e.message ≠ "Missing spend value" ∧
           e.message ≠ "Invalid spend format (must be numeric)") ∧
    (∀ s, getCell row col = some s → s ≠ "" →
       jsIsNumeric (stripMoney s) = false →
       spendCheck row i = [⟨i + 2, col, "Invalid spend format (must be numeric)"⟩] ∧
       (⟨i + 2, col, "Invalid spend format (must be numeric)"⟩ : ValidationError) ∈
         rowErrors row i) := by
  refine ⟨?_, ?_, ?_⟩
  · intro hf
    rw [spendCheck_resolved row i col h]
    cases hc : getCell row col with
    | none => rfl
    | some v =>
        rw [hc] at hf
        simp only [jsFalsyCell, beq_iff_eq] at hf
        subst hf
        rfl
  · intro s hs hne hnum
    have hsp : spendCheck row i = [] := by
      rw [spendCheck_resolved row i col h, hs]
      simp [beq_eq_false_iff_ne.mpr hne, hnum]
    refine ⟨hsp, ?_⟩
    intro e he
    rcases mem_rowErrors_split he with hd | hmid | hch
    · have hmsg := (mem_dateCheck hd).2
      rw [hmsg]
      exact ⟨by decide, by decide⟩
    · rw [hsp] at hmid
      simp at hmid
    · have hmsg := (mem_channelCheck hch).2
      rw [hmsg]
      exact ⟨by decide, by decide⟩
  · intro s hs hne hnum
    have hsp : spendCheck row i =
        [⟨i + 2, col, "Invalid spend format (must be numeric)"⟩] := by
      rw [spendCheck_resolved row i col h, hs]
      simp [beq_eq_false_iff_ne.mpr hne, hnum]
    refine ⟨hsp, ?_⟩
    unfold rowErrors
    rw [hsp]
    simp

/-- C5 witness: the row with spend `$1,234.50` produces no spend error, and
the row with spend `abc` produces exactly the invalid-format error. -/
theorem c5_spend_validation_witness :
    (spendCheck [("Spend", "$1,234.50")] 0 = [] ∧
      ∀ e ∈ rowErrors [("Spend", "$1,234.50")] 0,
        e.message ≠ "Missing spend value" ∧
        e.message ≠ "Invalid spend format (must be numeric)") ∧
    (spendCheck [("Spend", "abc")] 0 =
        [⟨2, "Spend", "Invalid spend format (must be numeric)"⟩] ∧
      (⟨2, "Spend", "Invalid spend format (must be numeric)"⟩ : ValidationError) ∈
        rowErrors [("Spend", "abc")] 0) :=
  ⟨(c5_spend_validation [("Spend", "$1,234.50")] 0 "Spend" (by decide)).2.1
      "$1,234.50" (by decide) (by decide) (by decide),
   (c5_spend_validation [("Spend", "abc")] 0 "Spend" (by decide)).2.2
      "abc" (by decide) (by decide) (by decide)⟩

/-- C6: in a row whose channel column resolves to a present text value, a
value whose characters are all in the class of letters, digits, space,
underscore and hyphen yields no channel error anywhere in the row's
errors, and a value with any character outside that class yields exactly
the `Channel name contains special characters` error, which appears in the
row's errors. -/
theorem c6_channel_validation (row : Row) (i : Nat) (col : String) (s : String)
    (h : findChannelKey row = some col) (hs : getCell row col = some s) :
    (s.data.all channelOkChar = true →
       channelCheck row i = [] ∧
         ∀ e ∈ rowErrors row i,
           e.message ≠ "Channel name contains special characters") ∧
    (s.data.all channelOkChar = false →
       channelCheck row i = [⟨i + 2, col, "Channel name contains special characters"⟩] ∧
       (⟨i + 2, col, "Channel name contains special characters"⟩ : ValidationError) ∈
         rowErrors row i) := by
  constructor
  · intro hall
    have hspec : hasSpecialChar s = false := by
      unfold hasSpecialChar
      rw [anyNot_eq_not_all, hall]
      rfl
    have hch : channelCheck row i = [] := by
      rw [channelCheck_resolved row i col h, hs]
      simp [hspec]
    refine ⟨hch, ?_⟩
    intro e he
    rcases mem_rowErrors_split he with hd | hmid | hch2
    · have hmsg := (mem_dateCheck hd).2
      rw [hmsg]
      decide
    · obtain ⟨-, hm⟩ := mem_spendCheck hmid
      cases hm with
      | inl h1 =>
          rw [h1]
          decide
      | inr h2 =>
          rw [h2]
          decide
    · rw [hch] at hch2
      simp at hch2
  · intro hall
    have hspec : hasSpecialChar s = true := by
      unfold hasSpecialChar
      rw [anyNot_eq_not_all, hall]
      rfl
    have hch : channelCheck row i =
        [⟨i + 2, col, "Channel name contains special characters"⟩] := by
      rw [channelCheck_resolved row i col h, hs]
      simp [hspec]
    refine ⟨hch, ?_⟩
    unfold rowErrors
    rw [hch]
    simp

/-- C6 witness: channel `TV_2 - west` is clean; channel `Search!!`
produces exactly the special-characters error. -/
theorem c6_channel_validation_witness :
    (channelCheck [("Channel", "TV_2 - west")] 0 = [] ∧
      ∀ e ∈ rowErrors [("Channel", "TV_2 - west")] 0,
        e.message ≠ "Channel name contains special characters") ∧
    (channelCheck [("Channel", "Search!!")] 3 =
        [⟨5, "Channel", "Channel name contains special characters"⟩] ∧
      (⟨5, "Channel", "Channel name contains special characters"⟩ : ValidationError) ∈
        rowErrors [("Channel", "Search!!")] 3) :=
  ⟨(c6_channel_validation [("Channel", "TV_2 - west")] 0 "Channel" "TV_2 - west"
      (by decide) (by decide)).1 (by decide),
   (c6_channel_validation [("Channel", "Search!!")] 3 "Channel" "Search!!"
      (by decide) (by decide)).2 (by decide)⟩

/-- C7: when the required columns are present, the summary's channel count
is the number of distinct elements of the resolved non-empty channel
values, and that count is unchanged under any permutation of the rows. -/
theorem c7_channels_distinct_perm (rows rows2 : List Row) (cols : List String)
    (hm : missingColumns cols = []) (hp : rows.Perm rows2) :
    (analyzeData rows cols).summary =
      some ⟨"Sample period", rows.length, (channelValues rows).dedup.length⟩ ∧
    (analyzeData rows cols).summary.map Summary.channels =
      (analyzeData rows2 cols).summary.map Summary.channels := by
  have hperm : (channelValues rows).Perm (channelValues rows2) := by
    unfold channelValues
    exact hp.filterMap _
  have hlen : (channelValues rows).dedup.length = (channelValues rows2).dedup.length :=
    hperm.dedup.length_eq
  constructor
  · rw [analyzeData_eq_ok hm]
    rfl
  · rw [analyzeData_eq_ok hm, @analyzeData_eq_ok rows2 cols hm]
    simp [jsSetSize, hlen]

/-- C7 witness: swapping the two rows leaves the distinct-channel count
equal. -/
theorem c7_channels_distinct_perm_witness :
    (analyzeData
        [[("channel", "TV"), ("date", "1"), ("campaign", "x"), ("spend", "1")],
         [("channel", "Radio"), ("date", "2"), ("campaign", "x"), ("spend", "2")]]
        ["date", "channel", "campaign", "spend"]).summary =
      some ⟨"Sample period", 2,
        (channelValues
          [[("channel", "TV"), ("date", "1"), ("campaign", "x"), ("spend", "1")],
           [("channel", "Radio"), ("date", "2"), ("campaign", "x"), ("spend", "2")]]).dedup.length⟩ ∧
    (analyzeData
        [[("channel", "TV"), ("date", "1"), ("campaign", "x"), ("spend", "1")],
         [("channel", "Radio"), ("date", "2"), ("campaign", "x"), ("spend", "2")]]
        ["date", "channel", "campaign", "spend"]).summary.map Summary.channels =
    (analyzeData
        [[("channel", "Radio"), ("date", "2"), ("campaign", "x"), ("spend", "2")],
         [("channel", "TV"), ("date", "1"), ("campaign", "x"), ("spend", "1")]]
        ["date", "channel", "campaign", "spend"]).summary.map Summary.channels :=
  c7_channels_distinct_perm
    [[("channel", "TV"), ("date", "1"), ("campaign", "x"), ("spend", "1")],
     [("channel", "Radio"), ("date", "2"), ("campaign", "x"), ("spend", "2")]]
    [[("channel", "Radio"), ("date", "2"), ("campaign", "x"), ("spend", "2")],
     [("channel", "TV"), ("date", "1"), ("campaign", "x"), ("spend", "1")]]
    ["date", "channel", "campaign", "spend"] (by decide)
    (List.Perm.swap
      [("channel", "Radio"), ("date", "2"), ("campaign", "x"), ("spend", "2")]
      [("channel", "TV"), ("date", "1"), ("campaign", "x"), ("spend", "1")] [])

/-- C2 counterexample: first, on a file missing required columns the
handler returns the error response before the `saveOnboardingStep` call,
so the record keeps `dataStatus = none` instead of the result's status;
second, on a well-formed file with one bad spend value the handler
persists the result's error list in `dataErrors`, not only the status. -/
theorem c2_persistence_counterexample :
    (analyzeEndpoint
        ⟨[⟨[[("Channel", "TV")]], ["Channel"]⟩], ⟨"upload", none, none, none⟩⟩).map
        (fun p => (p.1.status, p.2.record.dataStatus)) = some ("error", none) ∧
    (analyzeEndpoint
        ⟨[⟨[[("date", "d"), ("channel", "TV"), ("campaign", "X"), ("spend", "abc")]],
            ["date", "channel", "campaign", "spend"]⟩],
          ⟨"upload", none, none, none⟩⟩).map
        (fun p => p.2.record.dataErrors) =
      some (some [⟨2, "spend", "Invalid spend format (must be numeric)"⟩]) := by
  decide

/-- C2 amended: when the most recent file is missing required columns, the
endpoint returns the error result and leaves the server state (hence the
Onboarding Record) untouched; otherwise it persists into the record
exactly the step name, `dataStatus` equal to the result's status, and
`dataErrors` equal to the result's error list (empty when absent), leaving
every other record field and the file list unchanged; the preview, summary
and columns of the result are never persisted. -/
theorem c2_amended_persistence (st : ServerState) (file : ParsedFile)
    (rest : List ParsedFile) (h : st.files = file :: rest) :
    (missingColumns file.columns ≠ [] →
       analyzeEndpoint st = some (analyzeData file.rows file.columns, st)) ∧
    (missingColumns file.columns = [] →
       analyzeEndpoint st = some (analyzeData file.rows file.columns,
         ⟨st.files,
           { st.record with
               step := "analyze"
               dataStatus := some (analyzeData file.rows file.columns).status
               dataErrors := some ((analyzeData file.rows file.columns).errors.getD []) }⟩)) := by
  obtain ⟨fs, rec⟩ := st
  simp only at h
  subst h
  constructor
  · intro hm
    have hc : (missingColumns file.columns).length > 0 := List.length_pos.mpr hm
    simp only [analyzeEndpoint]
    rw [if_pos hc]
  · intro hm
    have hc : ¬(missingColumns file.columns).length > 0 := by
      rw [hm]
      simp
    simp only [analyzeEndpoint]
    rw [if_neg hc]
    rfl

/-- C2 amended witness: a two-column-error-free file passes through the
persistence path and the record gains exactly the analyze step fields. -/
theorem c2_amended_persistence_witness :
    analyzeEndpoint
        ⟨[⟨[[("date", "d"), ("channel", "TV"), ("campaign", "X"), ("spend", "5")]],
            ["date", "channel", "campaign", "spend"]⟩],
          ⟨"upload", some "roas", none, none⟩⟩ =
      some (analyzeData
          [[("date", "d"), ("channel", "TV"), ("campaign", "X"), ("spend", "5")]]
          ["date", "channel", "campaign", "spend"],
        ⟨[⟨[[("date", "d"), ("channel", "TV"), ("campaign", "X"), ("spend", "5")]],
            ["date", "channel", "campaign", "spend"]⟩],
          { step := "analyze"
            primaryKpi := some "roas"
            dataStatus := some (analyzeData
                [[("date", "d"), ("channel", "TV"), ("campaign", "X"), ("spend", "5")]]
                ["date", "channel", "campaign", "spend"]).status
            dataErrors := some ((analyzeData
                [[("date", "d"), ("channel", "TV"), ("campaign", "X"), ("spend", "5")]]
                ["date", "channel", "campaign", "spend"]).errors.getD []) }⟩) :=
  (c2_amended_persistence
    ⟨[⟨[[("date", "d"), ("channel", "TV"), ("campaign", "X"), ("spend", "5")]],
        ["date", "channel", "campaign", "spend"]⟩],
      ⟨"upload", some "roas", none, none⟩⟩
    ⟨[[("date", "d"), ("channel", "TV"), ("campaign", "X"), ("spend", "5")]],
      ["date", "channel", "campaign", "spend"]⟩
    [] rfl).2 (by decide)

/-- C8: re-running the analysis endpoint on the state it produced — same
uploaded file, record already updated — returns the identical response and
leaves the state fixed: the result depends only on the parsed file, and
the record update is idempotent. -/
theorem c8_rerun_identical (st st2 : ServerState) (r : DataValidationResponse)
    (h : analyzeEndpoint st = some (r, st2)) :
    analyzeEndpoint st2 = some (r, st2) := by
  obtain ⟨fs, rec⟩ := st
  cases fs with
  | nil => simp [analyzeEndpoint] at h
  | cons file rest =>
      simp only [analyzeEndpoint] at h
      by_cases hc : (missingColumns file.columns).length > 0
      · rw [if_pos hc] at h
        simp only [Option.some.injEq, Prod.mk.injEq] at h
        obtain ⟨hr, hst⟩ := h
        subst hr
        subst hst
        simp only [analyzeEndpoint]
        rw [if_pos hc]
      · rw [if_neg hc] at h
        simp only [Option.some.injEq, Prod.mk.injEq] at h
        obtain ⟨hr, hst⟩ := h
        subst hr
        subst hst
        simp only [analyzeEndpoint]
        rw [if_neg hc]
        simp [saveAnalyzeStep]

/-- C8 witness: running the endpoint a second time on the post-analysis
state reproduces the same response and state. -/
theorem c8_rerun_identical_witness :
    analyzeEndpoint
        ⟨[⟨[[("date", "d"), ("channel", "TV"), ("campaign", "X"), ("spend", "5")]],
            ["date", "channel", "campaign", "spend"]⟩],
          saveAnalyzeStep ⟨"upload", none, none, none⟩
            (analyzeData
              [[("date", "d"), ("channel", "TV"), ("campaign", "X"), ("spend", "5")]]
              ["date", "channel", "campaign", "spend"]).status
            ((analyzeData
              [[("date", "d"), ("channel", "TV"), ("campaign", "X"), ("spend", "5")]]
              ["date", "channel", "campaign", "spend"]).errors.getD [])⟩ =
      some (analyzeData
          [[("date", "d"), ("channel", "TV"), ("campaign", "X"), ("spend", "5")]]
          ["date", "channel", "campaign", "spend"],
        ⟨[⟨[[("date", "d"), ("channel", "TV"), ("campaign", "X"), ("spend", "5")]],
            ["date", "channel", "campaign", "spend"]⟩],
          saveAnalyzeStep ⟨"upload", none, none, none⟩
            (analyzeData
              [[("date", "d"), ("channel", "TV"), ("campaign", "X"), ("spend", "5")]]
              ["date", "channel", "campaign", "spend"]).status
            ((analyzeData
              [[("date", "d"), ("channel", "TV"), ("campaign", "X"), ("spend", "5")]]
              ["date", "channel", "campaign", "spend"]).errors.getD [])⟩) :=
  c8_rerun_identical
    ⟨[⟨[[("date", "d"), ("channel", "TV"), ("campaign", "X"), ("spend", "5")]],
        ["date", "channel", "campaign", "spend"]⟩],
      ⟨"upload", none, none, none⟩⟩
    _ _ (by decide)
